import Mathlib

/-!
Shallow embedding of the `PostsPage` Angular component
(`src/app/features/posts/pages/posts-page.component.ts`) and the `Post`
model (`src/app/core/models/post.model.ts`).

Modelling conventions:
* A `Post` record mirrors the TypeScript `Post` interface: the optional
  numeric `id` becomes `Option Nat`, the other fields are required.
* The component's Angular signals become fields of an explicit `PageState`
  record; each event handler becomes a state-transition function.
* Each remote call made through `PostsService` is modelled by passing the
  call's outcome (`Except Unit α`) to the handler: `.ok v` is the value the
  RxJS `next` callback receives, `.error ()` is a transport failure
  delivered to the `error` callback.
* RxJS semantics, which the embedding must respect: an `HttpClient`
  observable either emits one value via `next` and then invokes `complete`,
  or invokes `error` — the `complete` callback is NOT invoked after
  `error`.  Therefore code placed in a `complete:` handler runs only on
  the success path.
* JavaScript `String.prototype.includes`, `toLowerCase` and
  `Number.prototype.toString` are modelled by `strIncludes`, `strToLower`
  and `Nat.repr`; the blank test `!term.trim()` is modelled by `isBlank`
  (all characters whitespace); `===` on `number | undefined` is decidable
  equality on `Option Nat`.
-/

/-- The `Post` model (`post.model.ts`): optional `id`, required `userId`,
`title`, `body`. -/
structure Post where
  id : Option Nat
  userId : Nat
  title : String
  body : String
deriving Repr, DecidableEq

/-- Prefix test on character lists: `listPre p l` holds when `p` is an
initial segment of `l`. -/
def listPre : List Char → List Char → Bool
  | [], _ => true
  | _ :: _, [] => false
  | p :: ps, c :: cs => p == c && listPre ps cs

/-- Contiguous-substring test on character lists: `listSub p l` holds when
`p` occurs contiguously inside `l` (the empty pattern always occurs). -/
def listSub (pat : List Char) : List Char → Bool
  | [] => listPre pat []
  | c :: cs => listPre pat (c :: cs) || listSub pat cs

/-- JavaScript `s.includes(pat)`: contiguous substring containment. -/
def strIncludes (s pat : String) : Bool :=
  listSub pat.data s.data

/-- JavaScript `s.toLowerCase()` restricted to the ASCII range (the only
range the repository's data and the spec's examples exercise): maps each
character through `Char.toLower`. -/
def strToLower (s : String) : String :=
  String.mk (s.data.map Char.toLower)

/-- JavaScript `!term.trim()` as a predicate: the string trims to empty,
i.e. every character is whitespace.  (JS trims a slightly larger
whitespace set than `Char.isWhitespace`; the difference is outside the
repository's inputs.) -/
def isBlank (s : String) : Bool :=
  s.data.all Char.isWhitespace

/-- The reactive form `form = fb.group({title: [...], body: [...]})`.
Angular form controls hold `string | null` (they are `null` after
`form.reset()`), hence `Option String`; `touched` records
`markAllAsTouched`. -/
structure FormState where
  title : Option String
  body : Option String
  touched : Bool
deriving Repr, DecidableEq

/-- Validity of the form per its validators:
`title: [Validators.required, Validators.maxLength(100)]`,
`body: [Validators.required, Validators.maxLength(500)]`.
`required` rejects `null` and the empty string; `maxLength(n)` bounds the
length. -/
def formValid (f : FormState) : Bool :=
  match f.title, f.body with
  | some t, some b =>
      !t.isEmpty && decide (t.length ≤ 100) &&
      !b.isEmpty && decide (b.length ≤ 500)
  | _, _ => false

/-- The component's signal state: `allPosts` (the unfiltered mirror),
`posts` (the displayed, filtered list), the form, `searchTerm`,
`editingPost`, `loading` and `message`. -/
structure PageState where
  allPosts : List Post
  posts : List Post
  form : FormState
  searchTerm : String
  editingPost : Option Post
  loading : Bool
  message : Option String
deriving Repr, DecidableEq

namespace PostsPage

/-- `generateNewId`: `Math.max(...this.allPosts().map(p => p.id || 0), 100) + 1`.
An absent id contributes `0` (as does `id === 0`, since `0` is falsy). -/
def generateNewId (s : PageState) : Nat :=
  let allIds := s.allPosts.map (fun p => p.id.getD 0)
  (allIds.foldl max 100) + 1

/-- Whether a post passes the search filter for the given term
(the body of the `filter` callback in `applyCurrentFilter`):
lowercased title or body contains the lowercased term, or the stringified
`id` (when present; `post.id?.toString()` short-circuits to a falsy value
when `id` is `undefined`) or stringified `userId` contains the raw term. -/
def postMatches (term : String) (p : Post) : Bool :=
  strIncludes (strToLower p.title) (strToLower term) ||
  strIncludes (strToLower p.body) (strToLower term) ||
  (match p.id with
   | some i => strIncludes (Nat.repr i) term
   | none => false) ||
  strIncludes (Nat.repr p.userId) term

/-- `applyCurrentFilter`: a blank (whitespace-only) search term short-circuits
to displaying the whole mirror, otherwise `posts` becomes the mirror
filtered by `postMatches`. -/
def applyCurrentFilter (s : PageState) : PageState :=
  let term := s.searchTerm
  if isBlank term then
    { s with posts := s.allPosts }
  else
    { s with posts := s.allPosts.filter (postMatches term) }

/-- `resetForm`: `form.reset()` (fields back to `null`, untouched),
`editingPost.set(null)`, `message.set(null)`. -/
def resetForm (s : PageState) : PageState :=
  { s with
    form := { title := none, body := none, touched := false },
    editingPost := none,
    message := none }

/-- `loadAll`: sets `loading`, clears `message`, calls `getAll()` and
subscribes.  On `next(data)`: mirror and displayed list both become `data`
and a success message reports the count; `complete` then clears `loading`.
On `error`: only an error message is set — `complete` is not invoked after
`error`, so `loading` is left `true`. -/
def loadAll (s : PageState) (outcome : Except Unit (List Post)) : PageState :=
  let s1 := { s with loading := true, message := none }
  match outcome with
  | .ok data =>
      let s2 := { s1 with
        allPosts := data,
        posts := data,
        message := some ("✅ " ++ Nat.repr data.length ++ " posts cargados exitosamente") }
      { s2 with loading := false }
  | .error _ =>
      { s1 with message := some "❌ Error al cargar posts" }

/-- `create`: if the form is invalid, marks all fields touched and sets a
warning message without any remote call.  Otherwise sets `loading` and
calls `create(newPost)`.  On `next(created)`: prepends
`{...created, id: generateNewId()}` to the mirror, re-applies the filter,
sets a success message, then `resetForm()` (which clears the message);
`complete` clears `loading`.  On `error`: an error message only
(`complete` not invoked, `loading` stays `true`). -/
def create (s : PageState) (outcome : Except Unit Post) : PageState :=
  if !formValid s.form then
    { s with
      form := { s.form with touched := true },
      message := some "⚠️ Complete todos los campos correctamente" }
  else
    let s1 := { s with loading := true }
    match outcome with
    | .ok created =>
        let newPostWithId : Post := { created with id := some (generateNewId s1) }
        let s2 := { s1 with allPosts := newPostWithId :: s1.allPosts }
        let s3 := applyCurrentFilter s2
        let s4 := { s3 with
          message := some ("✅ Post \"" ++ created.title ++ "\" creado exitosamente") }
        let s5 := resetForm s4
        { s5 with loading := false }
    | .error _ =>
        { s1 with message := some "❌ Error al crear el post" }

/-- `update`: a no-op when nothing is being edited or the form is invalid.
Otherwise builds `updatedPost` from the edited post's `id`/`userId` and the
form's title/body, sets `loading`, calls `update(post.id!, updatedPost)`.
On `next`: every mirror entry whose `id === post.id` is replaced by
`updatedPost` (a `map`), filter re-applied, success message set, then
`resetForm()` (clearing the message); `complete` clears `loading`.
On `error`: error message only (`loading` stays `true`). -/
def update (s : PageState) (outcome : Except Unit Unit) : PageState :=
  match s.editingPost with
  | none => s
  | some post =>
    if !formValid s.form then s
    else
      let updatedPost : Post :=
        { id := post.id, userId := post.userId,
          title := s.form.title.getD "", body := s.form.body.getD "" }
      let s1 := { s with loading := true }
      match outcome with
      | .ok _ =>
          let updatedPosts :=
            s1.allPosts.map (fun p => if p.id = post.id then updatedPost else p)
          let s2 := applyCurrentFilter { s1 with allPosts := updatedPosts }
          let s3 := { s2 with message := some "✅ Post actualizado exitosamente" }
          let s4 := resetForm s3
          { s4 with loading := false }
      | .error _ =>
          { s1 with message := some "❌ Error al actualizar el post" }

/-- `delete`: requires the user to confirm (`confirm(...)`); declined means
no-op.  Otherwise sets `loading` and calls `delete(post.id!)`.  On `next`:
every mirror entry whose `id !== post.id` is kept (a `filter`), filter
re-applied, success message set; `complete` clears `loading`.  On `error`:
error message only (`loading` stays `true`). -/
def delete (s : PageState) (post : Post) (confirmed : Bool)
    (outcome : Except Unit Unit) : PageState :=
  if !confirmed then s
  else
    let s1 := { s with loading := true }
    match outcome with
    | .ok _ =>
        let filteredPosts := s1.allPosts.filter (fun p => !(p.id = post.id : Bool))
        let s2 := applyCurrentFilter { s1 with allPosts := filteredPosts }
        let s3 := { s2 with message := some "✅ Post eliminado exitosamente" }
        { s3 with loading := false }
    | .error _ =>
        { s1 with message := some "❌ Error al eliminar el post" }

/-- `editPost`: records the post being edited, patches the form with its
title/body (`patchValue` does not change touched-ness), and sets an
informational message. -/
def editPost (s : PageState) (post : Post) : PageState :=
  { s with
    editingPost := some post,
    form := { s.form with title := some post.title, body := some post.body },
    message := some ("📝 Editando: \"" ++ post.title ++ "\"") }

/-- `cancelEdit`: delegates to `resetForm`. -/
def cancelEdit (s : PageState) : PageState :=
  resetForm s

/-- `search`: lowercases the input value, stores it as the search term,
re-applies the filter; a non-blank term sets a result-count message, a
blank one clears the message. -/
def search (s : PageState) (rawValue : String) : PageState :=
  let term := strToLower rawValue
  let s1 := applyCurrentFilter { s with searchTerm := term }
  if !isBlank term then
    { s1 with
      message := some ("🔍 " ++ Nat.repr s1.posts.length ++
        " posts encontrados para \"" ++ term ++ "\"") }
  else
    { s1 with message := none }

/-- `clearSearch`: empties the search term, re-applies the filter (the
displayed list becomes the whole mirror) and clears the message. -/
def clearSearch (s : PageState) : PageState :=
  let s1 := applyCurrentFilter { s with searchTerm := "" }
  { s1 with message := none }

/-- `isEditing`: whether an edit target is set. -/
def isEditing (s : PageState) : Bool :=
  s.editingPost.isSome

end PostsPage

/-! Concrete fixtures used to instantiate the theorems on the spec's
example data. -/

/-- The entry from the spec's filter-matching example. -/
def helloPost : Post :=
  { id := some 7, userId := 3, title := "Hello", body := "world" }

/-- An entry with identifier 5 (the spec's id-generation example mirror). -/
def post5 : Post :=
  { id := some 5, userId := 1, title := "t", body := "b" }

/-- Entry with identifier 1 (spec's update/delete examples). -/
def postA : Post :=
  { id := some 1, userId := 1, title := "a", body := "b" }

/-- Entry with identifier 2 (spec's update/delete examples). -/
def postB : Post :=
  { id := some 2, userId := 1, title := "c", body := "d" }

/-- Entry with identifier 3 (spec's delete example). -/
def postC : Post :=
  { id := some 3, userId := 1, title := "e", body := "f" }

/-- An edit target whose identifier matches nothing in the example mirror. -/
def ghostPost : Post :=
  { id := some 999, userId := 1, title := "g", body := "h" }

/-- A pristine (reset) form. -/
def emptyForm : FormState :=
  { title := none, body := none, touched := false }

/-- A form holding valid `title`/`body` values. -/
def validForm : FormState :=
  { title := some "T", body := some "B", touched := false }

/-- The draft the component would post for `validForm` (`userId` fixed to 1). -/
def draftPost : Post :=
  { id := none, userId := 1, title := "T", body := "B" }

/-- State holding only `helloPost` with the given search term. -/
def mkSearchState (t : String) : PageState :=
  { allPosts := [helloPost], posts := [helloPost], form := emptyForm,
    searchTerm := t, editingPost := none, loading := false, message := none }

/-- Mirror `[post5]` (max identifier 5) with a valid form, nothing being
edited. -/
def baseState : PageState :=
  { allPosts := [post5], posts := [post5], form := validForm,
    searchTerm := "", editingPost := none, loading := false, message := none }

/-- `baseState` but editing `post5`. -/
def editState : PageState :=
  { baseState with editingPost := some post5 }

/-- Mirror `[postA, postB]`, editing `postB`, form title `"X"`. -/
def updState : PageState :=
  { allPosts := [postA, postB], posts := [postA, postB],
    form := { title := some "X", body := some "B", touched := false },
    searchTerm := "", editingPost := some postB, loading := false,
    message := none }

/-- Mirror `[postA, postB, postC]` for the delete example. -/
def delState : PageState :=
  { allPosts := [postA, postB, postC], posts := [postA, postB, postC],
    form := emptyForm, searchTerm := "", editingPost := none,
    loading := false, message := none }

/-- Mirror `[postA]` while editing `ghostPost`, whose identifier matches
no mirror entry. -/
def ghostState : PageState :=
  { allPosts := [postA], posts := [postA], form := validForm,
    searchTerm := "", editingPost := some ghostPost, loading := false,
    message := none }

/-- An invalid form (empty title fails `Validators.required`). -/
def invalidState : PageState :=
  { baseState with
    form := { title := some "", body := some "B", touched := false } }

/-- The state before the initial load. -/
def emptyState : PageState :=
  { allPosts := [], posts := [], form := emptyForm, searchTerm := "",
    editingPost := none, loading := false, message := none }

open PostsPage

/-! Helper lemmas shared by the claim theorems. -/

/-- The initial accumulator bounds a `foldl max` from below. -/
theorem foldl_max_init_le (l : List Nat) (a : Nat) : a ≤ l.foldl max a := by
  induction l generalizing a with
  | nil => exact Nat.le_refl a
  | cons x xs ih =>
      simp only [List.foldl_cons]
      exact Nat.le_trans (Nat.le_max_left a x) (ih (max a x))

/-- Every list element bounds a `foldl max` from below. -/
theorem foldl_max_le_of_mem (l : List Nat) (x : Nat) :
    x ∈ l → ∀ a : Nat, x ≤ l.foldl max a := by
  induction l with
  | nil => intro hx; cases hx
  | cons y ys ih =>
      intro hx a
      simp only [List.foldl_cons]
      rcases List.mem_cons.mp hx with h | h
      · subst h
        exact Nat.le_trans (Nat.le_max_right a x) (foldl_max_init_le ys _)
      · exact ih h (max a y)

/-- A `foldl max` is attained: it equals the initial accumulator or some
element of the list. -/
theorem foldl_max_eq_init_or_mem (l : List Nat) (a : Nat) :
    l.foldl max a = a ∨ l.foldl max a ∈ l := by
  induction l generalizing a with
  | nil => exact Or.inl rfl
  | cons y ys ih =>
      simp only [List.foldl_cons]
      rcases ih (max a y) with h | h
      · rcases max_choice a y with h2 | h2
        · exact Or.inl (h.trans h2)
        · exact Or.inr (List.mem_cons.mpr (Or.inl (h.trans h2)))
      · exact Or.inr (List.mem_cons.mpr (Or.inr h))

/-- `applyCurrentFilter` never touches the mirror. -/
theorem applyCurrentFilter_allPosts (s : PageState) :
    (applyCurrentFilter s).allPosts = s.allPosts := by
  by_cases h : isBlank s.searchTerm <;> simp [applyCurrentFilter, h]

/-- After `applyCurrentFilter`, the displayed list is an order-preserving
sublist of the mirror. -/
theorem applyCurrentFilter_posts_sublist (s : PageState) :
    List.Sublist (applyCurrentFilter s).posts (applyCurrentFilter s).allPosts := by
  by_cases h : isBlank s.searchTerm
  · simp only [applyCurrentFilter, h, if_true]
    exact List.Sublist.refl _
  · simp only [applyCurrentFilter, h, if_false]
    exact List.filter_sublist _

/-- A map whose function fixes every element of the list is the identity. -/
theorem map_eq_self_of_fixed {α : Type} (l : List α) (f : α → α)
    (h : ∀ a ∈ l, f a = a) : l.map f = l := by
  induction l with
  | nil => rfl
  | cons x xs ih =>
      simp only [List.map_cons]
      rw [h x (List.mem_cons_self x xs), ih (fun a ha => h a (List.mem_cons_of_mem x ha))]

/-- C8: when the load's remote fetch fails, the mirror and the displayed
list are unchanged from their pre-call values and the error status message
is set. -/
theorem c8_load_failure_leaves_state (s : PageState) :
    (loadAll s (Except.error ())).allPosts = s.allPosts ∧
    (loadAll s (Except.error ())).posts = s.posts ∧
    (loadAll s (Except.error ())).message = some "❌ Error al cargar posts" :=
  ⟨rfl, rfl, rfl⟩

/-- C1 (evidence of the code bug): for each of the four remote operations,
a failed call leaves `loading = true` — the reset sits in the RxJS
`complete` callback, which is not invoked after `error` — while a
successful call (here exemplified on Load) does clear it. -/
theorem c1_loading_not_cleared_on_error :
    (loadAll baseState (Except.error ())).loading = true ∧
    (create baseState (Except.error ())).loading = true ∧
    (update editState (Except.error ())).loading = true ∧
    (delete baseState post5 true (Except.error ())).loading = true ∧
    (loadAll baseState (Except.ok [])).loading = false := by
  decide

/-- C3: with a valid form, a successful Submit-create prepends (index 0 of
the mirror) the returned entry carrying the locally generated identifier,
which equals `max({id of each mirror entry, absent treated as 0} ∪ {100}) + 1`
(characterized below as the attained upper bound); on a mirror whose
maximum identifier is 5 the generated identifier is 101. -/
theorem c3_create_prepends_with_generated_id (s : PageState) (created : Post)
    (hvalid : formValid s.form = true) :
    (create s (Except.ok created)).allPosts =
      ({ created with id := some (generateNewId s) } : Post) :: s.allPosts ∧
    (∃ m : Nat, generateNewId s = m + 1 ∧ 100 ≤ m ∧
      (∀ p ∈ s.allPosts, p.id.getD 0 ≤ m) ∧
      (m = 100 ∨ ∃ p ∈ s.allPosts, p.id.getD 0 = m)) ∧
    generateNewId baseState = 101 := by
  refine ⟨?_, ?_, by decide⟩
  · simp [create, hvalid, applyCurrentFilter_allPosts, generateNewId, resetForm]
  · have hgen : generateNewId s =
        (s.allPosts.map (fun q => q.id.getD 0)).foldl max 100 + 1 := rfl
    refine ⟨(s.allPosts.map (fun q => q.id.getD 0)).foldl max 100, hgen,
      foldl_max_init_le _ _, ?_, ?_⟩
    · intro p hp
      exact foldl_max_le_of_mem (s.allPosts.map (fun q => q.id.getD 0))
        (p.id.getD 0) (List.mem_map_of_mem (fun q => q.id.getD 0) hp) 100
    · rcases foldl_max_eq_init_or_mem (s.allPosts.map (fun q => q.id.getD 0)) 100
        with h | h
      · exact Or.inl h
      · rcases List.mem_map.mp h with ⟨p, hp, hpid⟩
        exact Or.inr ⟨p, hp, hpid⟩

/-- Witness for C3: on the mirror `[post5]` (maximum identifier 5) with the
valid form `T`/`B`, the hypotheses hold and the conclusion instantiates. -/
theorem c3_witness :
    formValid baseState.form = true ∧
    ((create baseState (Except.ok draftPost)).allPosts =
      ({ draftPost with id := some (generateNewId baseState) } : Post) ::
        baseState.allPosts ∧
    (∃ m : Nat, generateNewId baseState = m + 1 ∧ 100 ≤ m ∧
      (∀ p ∈ baseState.allPosts, p.id.getD 0 ≤ m) ∧
      (m = 100 ∨ ∃ p ∈ baseState.allPosts, p.id.getD 0 = m)) ∧
    generateNewId baseState = 101) :=
  ⟨by decide, c3_create_prepends_with_generated_id baseState draftPost (by decide)⟩

/-- C6: after a confirmed, successful Delete of `post`, the mirror is the
previous mirror with exactly the entries whose identifier equals `post.id`
removed, remaining entries keeping their relative order (the result is a
sublist of the old mirror); deleting id 2 from `[id 1, id 2, id 3]` yields
`[id 1, id 3]` in that order. -/
theorem c6_delete_removes_by_id (s : PageState) (post : Post) :
    (∀ p : Post,
      p ∈ (delete s post true (Except.ok ())).allPosts ↔
        p ∈ s.allPosts ∧ p.id ≠ post.id) ∧
    List.Sublist (delete s post true (Except.ok ())).allPosts s.allPosts ∧
    (delete delState postB true (Except.ok ())).allPosts = [postA, postC] := by
  refine ⟨?_, ?_, by decide⟩
  · intro p
    simp [delete, applyCurrentFilter_allPosts, List.mem_filter]
  · have h : (delete s post true (Except.ok ())).allPosts =
        s.allPosts.filter (fun p => !decide (p.id = post.id)) := by
      simp [delete, applyCurrentFilter_allPosts]
    rw [h]
    exact List.filter_sublist _

/-- C7: when the form is invalid, Submit-create marks the form touched,
sets the warning status, leaves the mirror unchanged, and its result does
not depend on any remote outcome — the remote client is never invoked. -/
theorem c7_invalid_create_no_remote_call (s : PageState)
    (h : formValid s.form = false) :
    (∀ o1 o2 : Except Unit Post, create s o1 = create s o2) ∧
    ∀ o : Except Unit Post,
      (create s o).form.touched = true ∧
      (create s o).message = some "⚠️ Complete todos los campos correctamente" ∧
      (create s o).allPosts = s.allPosts := by
  constructor
  · intro o1 o2
    simp [create, h]
  · intro o
    refine ⟨?_, ?_, ?_⟩ <;> simp [create, h]

/-- Witness for C7: the empty-title form is invalid and the conclusion
instantiates on `invalidState`. -/
theorem c7_witness :
    formValid invalidState.form = false ∧
    ((∀ o1 o2 : Except Unit Post, create invalidState o1 = create invalidState o2) ∧
    ∀ o : Except Unit Post,
      (create invalidState o).form.touched = true ∧
      (create invalidState o).message =
        some "⚠️ Complete todos los campos correctamente" ∧
      (create invalidState o).allPosts = invalidState.allPosts) :=
  ⟨by decide, c7_invalid_create_no_remote_call invalidState (by decide)⟩

/-- The filter-callback predicate, characterized in the spec's terms:
matched by lowercased title, lowercased body, stringified identifier (when
present, against the raw term) or stringified owner id (raw term). -/
theorem postMatches_iff (term : String) (p : Post) :
    postMatches term p = true ↔
      (strIncludes (strToLower p.title) (strToLower term) = true ∨
       strIncludes (strToLower p.body) (strToLower term) = true ∨
       (∃ i : Nat, p.id = some i ∧ strIncludes (Nat.repr i) term = true) ∨
       strIncludes (Nat.repr p.userId) term = true) := by
  cases hp : p.id with
  | none =>
      simp only [postMatches, hp, Bool.or_eq_true, Option.some.injEq,
        reduceCtorEq, false_and, exists_false, false_or]
      tauto
  | some i =>
      simp only [postMatches, hp, Bool.or_eq_true, Option.some.injEq,
        exists_eq_left']
      tauto

/-- C4: the filter returns the full mirror unchanged for a blank
(whitespace-only) term, and otherwise exactly the entries whose lowercased
title or body contains the lowercased term, or whose stringified id or
owner id contains the raw term; the entry `{id 7, userId 3, "Hello",
"world"}` is kept for terms "hel", "WORLD", "7", "3" and dropped for
"zzz". -/
theorem c4_filter_characterization (s : PageState) :
    (isBlank s.searchTerm = true → (applyCurrentFilter s).posts = s.allPosts) ∧
    (isBlank s.searchTerm = false → ∀ p : Post,
      (p ∈ (applyCurrentFilter s).posts ↔
        p ∈ s.allPosts ∧
          (strIncludes (strToLower p.title) (strToLower s.searchTerm) = true ∨
           strIncludes (strToLower p.body) (strToLower s.searchTerm) = true ∨
           (∃ i : Nat, p.id = some i ∧
             strIncludes (Nat.repr i) s.searchTerm = true) ∨
           strIncludes (Nat.repr p.userId) s.searchTerm = true))) ∧
    helloPost ∈ (applyCurrentFilter (mkSearchState "hel")).posts ∧
    helloPost ∈ (applyCurrentFilter (mkSearchState "WORLD")).posts ∧
    helloPost ∈ (applyCurrentFilter (mkSearchState "7")).posts ∧
    helloPost ∈ (applyCurrentFilter (mkSearchState "3")).posts ∧
    helloPost ∉ (applyCurrentFilter (mkSearchState "zzz")).posts := by
  refine ⟨?_, ?_, by decide, by decide, by decide, by decide, by decide⟩
  · intro h
    simp [applyCurrentFilter, h]
  · intro h p
    simp [applyCurrentFilter, h, List.mem_filter, postMatches_iff]

/-- Witness for C4: the characterization instantiated at the one-entry
state with the non-blank term "hel". -/
theorem c4_witness :
    isBlank "hel" = false ∧
    (helloPost ∈ (applyCurrentFilter (mkSearchState "hel")).posts ↔
      helloPost ∈ [helloPost] ∧
        (strIncludes (strToLower helloPost.title) (strToLower "hel") = true ∨
         strIncludes (strToLower helloPost.body) (strToLower "hel") = true ∨
         (∃ i : Nat, helloPost.id = some i ∧
           strIncludes (Nat.repr i) "hel" = true) ∨
         strIncludes (Nat.repr helloPost.userId) "hel" = true)) :=
  ⟨by decide,
    (c4_filter_characterization (mkSearchState "hel")).2.1 (by decide) helloPost⟩

/-- C5: after a successful Submit-update while editing an entry with
identifier `k`, the mirror keeps its length and, position by position, the
entry whose identifier equals `k` is replaced by the entry built from `k`,
the edited entry's owner id, and the form's title and body, while every
entry with a different identifier is unchanged at its position. -/
theorem c5_update_replaces_by_id (s : PageState) (post : Post) (k : Nat)
    (hedit : s.editingPost = some post) (hid : post.id = some k)
    (hvalid : formValid s.form = true) :
    (update s (Except.ok ())).allPosts.length = s.allPosts.length ∧
    ∀ i : Nat,
      (update s (Except.ok ())).allPosts[i]? =
        (s.allPosts[i]?).map (fun p =>
          if p.id = some k then
            { id := some k, userId := post.userId,
              title := s.form.title.getD "", body := s.form.body.getD "" }
          else p) := by
  have hall : (update s (Except.ok ())).allPosts =
      s.allPosts.map (fun p =>
        if p.id = some k then
          { id := some k, userId := post.userId,
            title := s.form.title.getD "", body := s.form.body.getD "" }
        else p) := by
    simp [update, hedit, hvalid, hid, applyCurrentFilter_allPosts, resetForm]
  constructor
  · rw [hall]
    exact List.length_map _ _
  · intro i
    rw [hall]
    exact List.getElem?_map _ _ i

/-- Witness for C5 on the spec's example: mirror `[id 1, id 2]`, editing
id 2 with a new title "X". -/
theorem c5_witness :
    updState.editingPost = some postB ∧ postB.id = some 2 ∧
    formValid updState.form = true ∧
    ((update updState (Except.ok ())).allPosts.length =
      updState.allPosts.length ∧
    ∀ i : Nat,
      (update updState (Except.ok ())).allPosts[i]? =
        (updState.allPosts[i]?).map (fun p =>
          if p.id = some 2 then
            { id := some 2, userId := postB.userId,
              title := updState.form.title.getD "",
              body := updState.form.body.getD "" }
          else p)) :=
  ⟨rfl, rfl, by decide, c5_update_replaces_by_id updState postB 2 rfl rfl (by decide)⟩

/-- C2 (counterexample): a successful Submit-create on `baseState`, whose
form is valid, ends with status message `none` — not a success message:
`resetForm`, invoked right after the success message is set, clears it. -/
theorem c2_counterexample_no_success_message :
    formValid baseState.form = true ∧
    (create baseState (Except.ok draftPost)).message = none := by
  decide

/-- C2 (amended): after a successful Submit-create (in any mode, including
the normal create mode with no entry being edited) or a successful
Submit-update (while editing some entry), the form and the edit state are
reset, and the status message ends cleared — the success message set
during the handler is immediately cleared by the reset. -/
theorem c2_amended_reset_after_success (s : PageState) (created : Post)
    (hvalid : formValid s.form = true) :
    ((create s (Except.ok created)).form = emptyForm ∧
     (create s (Except.ok created)).editingPost = none ∧
     (create s (Except.ok created)).message = none) ∧
    ∀ post : Post, s.editingPost = some post →
      ((update s (Except.ok ())).form = emptyForm ∧
       (update s (Except.ok ())).editingPost = none ∧
       (update s (Except.ok ())).message = none) := by
  constructor
  · refine ⟨?_, ?_, ?_⟩ <;> simp [create, hvalid, resetForm, emptyForm]
  · intro post hedit
    refine ⟨?_, ?_, ?_⟩ <;> simp [update, hedit, hvalid, resetForm, emptyForm]

/-- Witness for C2 (amended): the create conjunct instantiated on
`baseState` (valid form, create mode: nothing being edited) and the update
conjunct on `editState` (valid form, editing `post5`). -/
theorem c2_amended_witness :
    formValid baseState.form = true ∧ baseState.editingPost = none ∧
    formValid editState.form = true ∧ editState.editingPost = some post5 ∧
    ((create baseState (Except.ok draftPost)).form = emptyForm ∧
     (create baseState (Except.ok draftPost)).editingPost = none ∧
     (create baseState (Except.ok draftPost)).message = none) ∧
    ((update editState (Except.ok ())).form = emptyForm ∧
     (update editState (Except.ok ())).editingPost = none ∧
     (update editState (Except.ok ())).message = none) :=
  ⟨by decide, rfl, by decide, rfl,
    (c2_amended_reset_after_success baseState draftPost (by decide)).1,
    (c2_amended_reset_after_success editState draftPost (by decide)).2 post5 rfl⟩

/-- C10 (counterexample): editing `ghostPost` (id 999) over the mirror
`[postA]` (id 1) with a valid form, a successful Submit-update leaves the
mirror unchanged but ends with status message `none` — no success message
is left set, since `resetForm` cleared it. -/
theorem c10_counterexample_no_success_message :
    ghostState.editingPost = some ghostPost ∧
    formValid ghostState.form = true ∧
    decide (postA.id = ghostPost.id) = false ∧
    (update ghostState (Except.ok ())).allPosts = ghostState.allPosts ∧
    (update ghostState (Except.ok ())).message = none := by
  decide

/-- C10 (amended): if Submit-update runs while editing an entry whose
identifier matches no mirror entry, the remote call is still made (its
failure is observable as the error status), and on success the mirror is
left entirely unchanged — the replacement map is the identity — while the
handler completes its normal success path: form and edit state reset, and
the status message cleared by the reset rather than holding a success
message. -/
theorem c10_amended_ghost_update (s : PageState) (post : Post)
    (hedit : s.editingPost = some post) (hvalid : formValid s.form = true)
    (hmiss : ∀ p ∈ s.allPosts, p.id ≠ post.id) :
    (update s (Except.ok ())).allPosts = s.allPosts ∧
    (update s (Except.ok ())).editingPost = none ∧
    (update s (Except.ok ())).form = emptyForm ∧
    (update s (Except.ok ())).message = none ∧
    (update s (Except.error ())).message =
      some "❌ Error al actualizar el post" := by
  have hall : (update s (Except.ok ())).allPosts =
      s.allPosts.map (fun p =>
        if p.id = post.id then
          { id := post.id, userId := post.userId,
            title := s.form.title.getD "", body := s.form.body.getD "" }
        else p) := by
    simp [update, hedit, hvalid, applyCurrentFilter_allPosts, resetForm]
  refine ⟨?_, ?_, ?_, ?_, ?_⟩
  · rw [hall]
    exact map_eq_self_of_fixed _ _ (fun p hp => if_neg (fun h => hmiss p hp h))
  · simp [update, hedit, hvalid, resetForm]
  · simp [update, hedit, hvalid, resetForm, emptyForm]
  · simp [update, hedit, hvalid, resetForm]
  · simp [update, hedit, hvalid]

/-- Witness for C10 (amended): instantiated on `ghostState`. -/
theorem c10_witness :
    ghostState.editingPost = some ghostPost ∧
    formValid ghostState.form = true ∧
    (∀ p ∈ ghostState.allPosts, p.id ≠ ghostPost.id) ∧
    ((update ghostState (Except.ok ())).allPosts = ghostState.allPosts ∧
     (update ghostState (Except.ok ())).editingPost = none ∧
     (update ghostState (Except.ok ())).form = emptyForm ∧
     (update ghostState (Except.ok ())).message = none ∧
     (update ghostState (Except.error ())).message =
       some "❌ Error al actualizar el post") :=
  ⟨rfl, by decide, by decide,
    c10_amended_ghost_update ghostState ghostPost rfl (by decide) (by decide)⟩

/-- C9: if the displayed list is an order-preserving sublist of the mirror
(every displayed entry occurs in the mirror, in the same relative order),
then it still is after every controller operation — Load, Submit-create,
Submit-update, Delete, Search, Clear-search, Begin-edit and Reset — for
every confirmation choice and every remote outcome. -/
theorem c9_displayed_sublist_invariant (s : PageState)
    (h : List.Sublist s.posts s.allPosts) :
    (∀ o : Except Unit (List Post),
      List.Sublist (loadAll s o).posts (loadAll s o).allPosts) ∧
    (∀ o : Except Unit Post,
      List.Sublist (create s o).posts (create s o).allPosts) ∧
    (∀ o : Except Unit Unit,
      List.Sublist (update s o).posts (update s o).allPosts) ∧
    (∀ (post : Post) (c : Bool) (o : Except Unit Unit),
      List.Sublist (delete s post c o).posts (delete s post c o).allPosts) ∧
    (∀ v : String,
      List.Sublist (search s v).posts (search s v).allPosts) ∧
    List.Sublist (clearSearch s).posts (clearSearch s).allPosts ∧
    (∀ post : Post,
      List.Sublist (editPost s post).posts (editPost s post).allPosts) ∧
    List.Sublist (resetForm s).posts (resetForm s).allPosts := by
  refine ⟨?_, ?_, ?_, ?_, ?_, ?_, ?_, ?_⟩
  · intro o
    cases o with
    | ok data => exact List.Sublist.refl data
    | error e => exact h
  · intro o
    by_cases hb : formValid s.form
    · cases o with
      | ok created =>
          simp only [create, hb, Bool.not_true, Bool.false_eq_true, if_false,
            resetForm]
          exact applyCurrentFilter_posts_sublist _
      | error e =>
          simp only [create, hb, Bool.not_true, Bool.false_eq_true, if_false]
          exact h
    · rw [Bool.not_eq_true] at hb
      simp only [create, hb, Bool.not_false, if_true]
      exact h
  · intro o
    cases he : s.editingPost with
    | none =>
        simp only [update, he]
        exact h
    | some post =>
        by_cases hb : formValid s.form
        · cases o with
          | ok u =>
              simp only [update, he, hb, Bool.not_true, Bool.false_eq_true,
                if_false, resetForm]
              exact applyCurrentFilter_posts_sublist _
          | error e =>
              simp only [update, he, hb, Bool.not_true, Bool.false_eq_true,
                if_false]
              exact h
        · rw [Bool.not_eq_true] at hb
          simp only [update, he, hb, Bool.not_false, if_true]
          exact h
  · intro post c o
    cases c with
    | false => exact h
    | true =>
        cases o with
        | ok u => exact applyCurrentFilter_posts_sublist _
        | error e => exact h
  · intro v
    by_cases hbl : isBlank (strToLower v)
    · simp only [search, hbl, Bool.not_true, Bool.false_eq_true, if_false]
      exact applyCurrentFilter_posts_sublist _
    · rw [Bool.not_eq_true] at hbl
      simp only [search, hbl, Bool.not_false, if_true]
      exact applyCurrentFilter_posts_sublist _
  · exact applyCurrentFilter_posts_sublist _
  · intro post
    exact h
  · exact h

/-- Witness for C9: instantiated on the pre-load empty state and a
successful Load. -/
theorem c9_witness :
    List.Sublist emptyState.posts emptyState.allPosts ∧
    List.Sublist (loadAll emptyState (Except.ok [helloPost])).posts
      (loadAll emptyState (Except.ok [helloPost])).allPosts :=
  ⟨List.nil_sublist _,
    (c9_displayed_sublist_invariant emptyState (List.nil_sublist _)).1
      (Except.ok [helloPost])⟩
